import Mathlib

/-!
Verification development for the IMU telemetry acquisition core
(src/imu_server/IMU_server.py of the CognitiveApp repository).

The embedding models:
  - the Metrics Engine (`_calculate_stability_index`,
    `_calculate_movement_efficiency`) over exact rationals; the NaN that
    numpy produces on an empty slice is modelled by `Option` (`none` = NaN),
    and the Python expression max(0, e) — which returns 0 when e is NaN,
    because nan > 0 is false — is modelled by `pyMaxZero`;
  - the Frame Codec (`send_request` / the decode part of `receive_response`)
    at the byte level, with 32-bit float values represented by their 32-bit
    patterns (bit-for-bit round-trip is a statement about bit patterns);
  - the poll loop of `start` as an explicit step function over a server
    state (dataset lists, per-channel last_* caches, socket presence, the
    local led_game_counter), one step per loop iteration, with the
    recursive-restart reconnection path modelled as: re-accept a client and
    reset the local counter, keeping the fields stored on self;
  - `receive_response` as a stateful transition on wire-level events,
    including the catch-all exception handler around decoding, sample
    processing and `_log_data`.
-/

namespace IMUServer

/-! ### Metrics Engine -/

/-- numpy mean of a list: NaN (modelled as `none`) on an empty list,
otherwise the sum divided by the length. -/
def npmean (xs : List ℚ) : Option ℚ :=
  if xs = [] then none else some (xs.sum / (xs.length : ℚ))

/-- numpy population variance (np.var, ddof = 0): the mean of the squared
deviations from the mean; NaN (`none`) on an empty list. -/
def npvar (xs : List ℚ) : Option ℚ :=
  (npmean xs).map fun m => ((xs.map fun x => (x - m) ^ 2).sum) / (xs.length : ℚ)

/-- np.diff: first difference of consecutive samples, out i = a (i+1) - a i. -/
def npdiff (xs : List ℚ) : List ℚ :=
  List.zipWith (fun a b => a - b) (xs.drop 1) xs

/-- Average of three per-axis quantities, as in the Python source
(`(var_x + var_y + var_z) / 3`); `none` (NaN) if any axis is NaN. -/
def avg3 : Option ℚ → Option ℚ → Option ℚ → Option ℚ
  | some a, some b, some c => some ((a + b + c) / 3)
  | _, _, _ => none

/-- The Python expression max(0, base - v * scale): when v is NaN (`none`)
the subtraction is NaN and max(0, nan) evaluates to 0 in Python, because
CPython's max keeps the first argument unless the second compares greater. -/
def pyMaxZero (base scale : ℚ) : Option ℚ → ℚ
  | some v => max 0 (base - v * scale)
  | none => 0

/-- `_calculate_stability_index`: returns 0.0 when acc_x is empty, else
max(0, 100 - avg_variance * 10) where avg_variance is the mean of the three
per-axis acceleration variances. -/
def calculate_stability_index (acc_x acc_y acc_z : List ℚ) : ℚ :=
  if acc_x = [] then 0
  else pyMaxZero 100 10 (avg3 (npvar acc_x) (npvar acc_y) (npvar acc_z))

/-- `_calculate_movement_efficiency`: returns 0.0 when gyro_x is empty, else
max(0, 100 - avg_jerk * 20) where avg_jerk is the mean over the three axes
of the mean absolute first difference of consecutive gyroscope samples. -/
def calculate_movement_efficiency (gyro_x gyro_y gyro_z : List ℚ) : ℚ :=
  if gyro_x = [] then 0
  else pyMaxZero 100 20
    (avg3 (npmean ((npdiff gyro_x).map (fun v => |v|)))
          (npmean ((npdiff gyro_y).map (fun v => |v|)))
          (npmean ((npdiff gyro_z).map (fun v => |v|))))

/-- Modelled from the spec: the mean of a finite sample, written as a total
function (only ever applied to nonempty lists in the statements below). -/
def specMean (xs : List ℚ) : ℚ := xs.sum / (xs.length : ℚ)

/-- Modelled from the spec: the population variance of a finite sample. -/
def specVariance (xs : List ℚ) : ℚ :=
  ((xs.map fun x => (x - specMean xs) ^ 2).sum) / (xs.length : ℚ)

/-- Modelled from the spec: stabilityIndex =
max(0, 100 - 10 * mean(variance acc_x, variance acc_y, variance acc_z)). -/
def specStability (acc_x acc_y acc_z : List ℚ) : ℚ :=
  max 0 (100 - 10 * ((specVariance acc_x + specVariance acc_y + specVariance acc_z) / 3))

/-- Modelled from the spec: the mean absolute first difference of a channel. -/
def specMeanAbsDiff (xs : List ℚ) : ℚ := specMean ((npdiff xs).map (fun v => |v|))

/-- Modelled from the spec: movementEfficiency =
max(0, 100 - 20 * mean of the three per-axis mean absolute differences). -/
def specEfficiency (gx gy gz : List ℚ) : ℚ :=
  max 0 (100 - 20 * ((specMeanAbsDiff gx + specMeanAbsDiff gy + specMeanAbsDiff gz) / 3))

/-! ### Frame Codec

Wire values are bytes (naturals below 256).  A decoded 32-bit float is
represented by its 32-bit pattern: struct.unpack reads the pattern from
four little-endian bytes and reinterprets it, so a float is recovered
bit-for-bit exactly when its pattern is. -/

def REQUEST_SIZE : ℕ := 4
def RESPONSE_PAYLOAD_SIZE : ℕ := 12

def REQ_READ_ACCELERATION : ℕ := 0x51
def REQ_READ_GYROSCOPE : ℕ := 0x52
def REQ_READ_MAGNETOMETER : ℕ := 0x53
def REQ_START_LED_GAME : ℕ := 0x54

/-- The four request kinds of the protocol. -/
inductive RequestKind where
  | readAcceleration
  | readGyroscope
  | readMagnetometer
  | startAuxiliaryGame
deriving DecidableEq

/-- The identifier byte of each request kind. -/
def requestByte : RequestKind → ℕ
  | .readAcceleration => REQ_READ_ACCELERATION
  | .readGyroscope => REQ_READ_GYROSCOPE
  | .readMagnetometer => REQ_READ_MAGNETOMETER
  | .startAuxiliaryGame => REQ_START_LED_GAME

/-- `send_request` frame construction: struct.pack of one kind byte followed
by the fixed unused payload bytes 0x01 0x02 0x03. -/
def encodeRequest (k : RequestKind) : List ℕ := [requestByte k, 1, 2, 3]

/-- Value of a little-endian byte list. -/
def leValue (bs : List ℕ) : ℕ := bs.foldr (fun b acc => b + 256 * acc) 0

/-- The `w` little-endian bytes of a value. -/
def leBytes : ℕ → ℕ → List ℕ
  | 0, _ => []
  | w + 1, v => v % 256 :: leBytes w (v / 256)

/-- Device-side encoding of a sensor payload: three little-endian 32-bit
words (the bit patterns of the three float32 fields x, y, z). -/
def pack_fff (x y z : ℕ) : List ℕ := leBytes 4 x ++ leBytes 4 y ++ leBytes 4 z

/-- Device-side encoding of an auxiliary-game payload: six little-endian
16-bit unsigned integers. -/
def pack_6H (v0 v1 v2 v3 v4 v5 : ℕ) : List ℕ :=
  leBytes 2 v0 ++ leBytes 2 v1 ++ leBytes 2 v2 ++ leBytes 2 v3 ++ leBytes 2 v4 ++ leBytes 2 v5

/-- struct.unpack of three little-endian 32-bit fields from a 12-byte
payload; fails on any other length. -/
def unpack_fff (p : List ℕ) : Option (ℕ × ℕ × ℕ) :=
  match p with
  | [a0, a1, a2, a3, b0, b1, b2, b3, c0, c1, c2, c3] =>
      some (leValue [a0, a1, a2, a3], leValue [b0, b1, b2, b3], leValue [c0, c1, c2, c3])
  | _ => none

/-- struct.unpack of six little-endian 16-bit unsigned integers from a
12-byte payload; fails on any other length. -/
def unpack_6H (p : List ℕ) : Option (List ℕ) :=
  match p with
  | [a0, a1, b0, b1, c0, c1, d0, d1, e0, e1, f0, f1] =>
      some [leValue [a0, a1], leValue [b0, b1], leValue [c0, c1],
            leValue [d0, d1], leValue [e0, e1], leValue [f0, f1]]
  | _ => none

/-- A decoded response: a sensor sample (three float32 bit patterns) or an
auxiliary-game result (six 16-bit counters). -/
inductive DecodedResponse where
  | sensorSample (kind : ℕ) (x y z : ℕ)
  | gameResult (vals : List ℕ)
deriving DecidableEq

/-- The decode dispatch of `receive_response`: a 12-byte payload is read as
three little-endian float32 fields for the three sensor kinds and as six
little-endian uint16 fields for the auxiliary-game kind; any other kind or
payload length yields no decoded response. -/
def decodeResponse (respType : ℕ) (payload : List ℕ) : Option DecodedResponse :=
  if respType = REQ_READ_ACCELERATION ∨ respType = REQ_READ_GYROSCOPE ∨
      respType = REQ_READ_MAGNETOMETER then
    (unpack_fff payload).map fun v => .sensorSample respType v.1 v.2.1 v.2.2
  else if respType = REQ_START_LED_GAME then
    (unpack_6H payload).map .gameResult
  else none

/-! ### Poll Scheduler / Session Store

The loop of `start`, one step per iteration, over decoded values (the
scheduler is independent of the bit-level representation, so channel values
are modelled as rationals here).  Per-channel outcomes abstract the result
of the synchronous send_request/receive_response pair of that channel. -/

/-- Outcome of one channel's request/response exchange within a cycle:
a successful decode (carrying whether the subsequent `_log_data` write
succeeds), a framing failure (short read, empty read or unrecognized type:
`receive_response` returns silently), or an exception during send/receive
(`handle_disconnection` is invoked). -/
inductive ChanOutcome where
  | ok (x y z : ℚ) (logOk : Bool)
  | badFrame
  | ioError
deriving DecidableEq

/-- The environment of one poll-loop iteration: the elapsed-time value
appended to timestamps, and the outcome of each sensor exchange. -/
structure CycleInput where
  t : ℚ
  acc : ChanOutcome
  gyro : ChanOutcome
  mag : ChanOutcome
deriving DecidableEq

/-- The full_dataset lists populated by the loop of `start`. -/
structure DataSet where
  acc_x : List ℚ
  acc_y : List ℚ
  acc_z : List ℚ
  gyro_x : List ℚ
  gyro_y : List ℚ
  gyro_z : List ℚ
  mag_x : List ℚ
  mag_y : List ℚ
  mag_z : List ℚ
  timestamps : List ℚ
deriving DecidableEq

/-- The last_* fields of the server object (ChannelCache). -/
structure Caches where
  accel_x : ℚ
  accel_y : ℚ
  accel_z : ℚ
  gyro_x : ℚ
  gyro_y : ℚ
  gyro_z : ℚ
  mag_x : ℚ
  mag_y : ℚ
  mag_z : ℚ
deriving DecidableEq

/-- Connection and durable-log state: whether client_socket is present, and
how many records `_log_data` has appended to the durable log. -/
structure LinkState where
  connected : Bool
  logLines : ℕ
deriving DecidableEq

/-- The scheduler state: dataset and caches live on the server object;
ledCounter models the local led_game_counter of `start`; gamesIssued counts
auxiliary-game requests actually sent on the socket. -/
structure ServerState where
  ds : DataSet
  cache : Caches
  link : LinkState
  ledCounter : ℕ
  gamesIssued : ℕ
deriving DecidableEq

/-- `processAcceleration`: stores the decoded values in the cache first and
then appends a log record; a `_log_data` failure raises and is caught by
the catch-all handler of `receive_response`, which closes the socket. -/
def processAcceleration (cache : Caches) (link : LinkState) (x y z : ℚ)
    (logOk : Bool) : Caches × LinkState :=
  let cache := { cache with accel_x := x, accel_y := y, accel_z := z }
  if logOk then (cache, { link with logLines := link.logLines + 1 })
  else (cache, { link with connected := false })

/-- `processGyroscope`: as for acceleration. -/
def processGyroscope (cache : Caches) (link : LinkState) (x y z : ℚ)
    (logOk : Bool) : Caches × LinkState :=
  let cache := { cache with gyro_x := x, gyro_y := y, gyro_z := z }
  if logOk then (cache, { link with logLines := link.logLines + 1 })
  else (cache, { link with connected := false })

/-- `processMagnetometer`: as for acceleration. -/
def processMagnetometer (cache : Caches) (link : LinkState) (x y z : ℚ)
    (logOk : Bool) : Caches × LinkState :=
  let cache := { cache with mag_x := x, mag_y := y, mag_z := z }
  if logOk then (cache, { link with logLines := link.logLines + 1 })
  else (cache, { link with connected := false })

/-- One send_request/receive_response pair for the acceleration channel:
both return immediately when client_socket is gone; an exception closes the
socket; a framing failure changes nothing. -/
def recvAcceleration (cache : Caches) (link : LinkState) (o : ChanOutcome) :
    Caches × LinkState :=
  if link.connected then
    match o with
    | .ok x y z lg => processAcceleration cache link x y z lg
    | .badFrame => (cache, link)
    | .ioError => (cache, { link with connected := false })
  else (cache, link)

/-- One send_request/receive_response pair for the gyroscope channel. -/
def recvGyroscope (cache : Caches) (link : LinkState) (o : ChanOutcome) :
    Caches × LinkState :=
  if link.connected then
    match o with
    | .ok x y z lg => processGyroscope cache link x y z lg
    | .badFrame => (cache, link)
    | .ioError => (cache, { link with connected := false })
  else (cache, link)

/-- One send_request/receive_response pair for the magnetometer channel. -/
def recvMagnetometer (cache : Caches) (link : LinkState) (o : ChanOutcome) :
    Caches × LinkState :=
  if link.connected then
    match o with
    | .ok x y z lg => processMagnetometer cache link x y z lg
    | .badFrame => (cache, link)
    | .ioError => (cache, { link with connected := false })
  else (cache, link)

/-- The unconditional append block of the loop body: one timestamp and one
value per channel list, taken from the current last_* caches. -/
def appendSamples (ds : DataSet) (cache : Caches) (t : ℚ) : DataSet :=
  { ds with
    timestamps := ds.timestamps ++ [t]
    acc_x := ds.acc_x ++ [cache.accel_x]
    acc_y := ds.acc_y ++ [cache.accel_y]
    acc_z := ds.acc_z ++ [cache.accel_z]
    gyro_x := ds.gyro_x ++ [cache.gyro_x]
    gyro_y := ds.gyro_y ++ [cache.gyro_y]
    gyro_z := ds.gyro_z ++ [cache.gyro_z]
    mag_x := ds.mag_x ++ [cache.mag_x]
    mag_y := ds.mag_y ++ [cache.mag_y]
    mag_z := ds.mag_z ++ [cache.mag_z] }

/-- The auxiliary-game block at the end of the loop body: the counter is
incremented every cycle; when it reaches 10 the game request is sent (only
actually transmitted when client_socket is present) and the counter resets. -/
def ledGameStep (s : ServerState) : ServerState :=
  if s.ledCounter + 1 ≥ 10 then
    { s with ledCounter := 0
             gamesIssued := s.gamesIssued + (if s.link.connected then 1 else 0) }
  else { s with ledCounter := s.ledCounter + 1 }

/-- The reconnection check at the top of the loop: when client_socket is
gone, `start` is called recursively, which blocks until a new client is
accepted and continues polling with a fresh local led_game_counter; the
dataset and caches are fields on self and are preserved. -/
def reconnectIfNeeded (s : ServerState) : ServerState :=
  if s.link.connected then s
  else { s with link := { s.link with connected := true }, ledCounter := 0 }

/-- The three synchronous request/response exchanges of one cycle, in the
fixed order acceleration, gyroscope, magnetometer. -/
def recvChain (cache : Caches) (link : LinkState) (c : CycleInput) : Caches × LinkState :=
  let r1 := recvAcceleration cache link c.acc
  let r2 := recvGyroscope r1.1 r1.2 c.gyro
  recvMagnetometer r2.1 r2.2 c.mag

/-- One iteration of the polling loop of `start`. -/
def stepCycle (s : ServerState) (c : CycleInput) : ServerState :=
  let s0 := reconnectIfNeeded s
  let r := recvChain s0.cache s0.link c
  ledGameStep { s0 with ds := appendSamples s0.ds r.1 c.t, cache := r.1, link := r.2 }

/-- A run of consecutive poll cycles. -/
def runCycles (s : ServerState) (cs : List CycleInput) : ServerState :=
  cs.foldl stepCycle s

/-- The state after `IMU_Server.__init__` plus the initial accept of
`start`: empty dataset, all last_* caches 0.0, a connected client, counter
and counts at zero. -/
def initState : ServerState :=
  { ds := { acc_x := [], acc_y := [], acc_z := [], gyro_x := [], gyro_y := [],
            gyro_z := [], mag_x := [], mag_y := [], mag_z := [], timestamps := [] }
    cache := { accel_x := 0, accel_y := 0, accel_z := 0, gyro_x := 0, gyro_y := 0,
               gyro_z := 0, mag_x := 0, mag_y := 0, mag_z := 0 }
    link := { connected := true, logLines := 0 }
    ledCounter := 0
    gamesIssued := 0 }

/-- A cycle is clean when no exchange raises and every log write succeeds,
so the client socket survives the cycle (framing failures are clean: they
drop the sample without touching the connection). -/
def cleanOutcome : ChanOutcome → Bool
  | .ok _ _ _ lg => lg
  | .badFrame => true
  | .ioError => false

/-- All three exchanges of the cycle are clean. -/
def cleanCycle (c : CycleInput) : Bool :=
  cleanOutcome c.acc && cleanOutcome c.gyro && cleanOutcome c.mag

/-- A cycle on which every exchange suffers a framing failure: every decode
is lost and every appended value falls back to the cache. -/
def quietCycle : CycleInput :=
  { t := 0, acc := .badFrame, gyro := .badFrame, mag := .badFrame }

/-- A cycle on which the acceleration exchange raises an I/O error. -/
def failCycle : CycleInput :=
  { t := 0, acc := .ioError, gyro := .badFrame, mag := .badFrame }

/-! ### Wire-level receive_response

`receive_response` as a transition on wire events, for the connection and
persistence failure claims.  Sensor values are float32 bit patterns here. -/

/-- State touched by `receive_response`: socket presence, the three cached
sensor triples (as float32 bit patterns) and the durable-log line count. -/
structure WireState where
  connected : Bool
  accel : ℕ × ℕ × ℕ
  gyro : ℕ × ℕ × ℕ
  mag : ℕ × ℕ × ℕ
  logLines : ℕ
deriving DecidableEq

/-- What one call of `receive_response` observes on the wire: an exception
from recv, an empty type read (peer closed: recv returns no bytes), or a
frame with a type byte, reserved bytes and a payload, together with whether
a `_log_data` write during processing would succeed. -/
inductive RecvEvent where
  | recvError
  | closedPeer
  | frame (respType : ℕ) (reserved : List ℕ) (payload : List ℕ) (logOk : Bool)
deriving DecidableEq

/-- `receive_response`: returns at once when client_socket is gone; an
exception anywhere in the body (recv, or `_log_data` inside the process
methods) is caught by the catch-all handler, which calls
`handle_disconnection`; an empty type read or a payload shorter than 12
bytes returns silently; otherwise the payload is decoded and dispatched. -/
def receive_response (s : WireState) (ev : RecvEvent) : WireState :=
  if s.connected then
    match ev with
    | .recvError => { s with connected := false }
    | .closedPeer => s
    | .frame rt _ p lg =>
        match decodeResponse rt p with
        | some (.sensorSample k x y z) =>
            if k = REQ_READ_ACCELERATION then
              let s := { s with accel := (x, y, z) }
              if lg then { s with logLines := s.logLines + 1 }
              else { s with connected := false }
            else if k = REQ_READ_GYROSCOPE then
              let s := { s with gyro := (x, y, z) }
              if lg then { s with logLines := s.logLines + 1 }
              else { s with connected := false }
            else
              let s := { s with mag := (x, y, z) }
              if lg then { s with logLines := s.logLines + 1 }
              else { s with connected := false }
        | some (.gameResult _) =>
            if lg then { s with logLines := s.logLines + 1 }
            else { s with connected := false }
        | none => s
  else s

/-- A connected receive-side state with zeroed caches and an empty log,
the state right after construction and accept. -/
def recvInit : WireState :=
  { connected := true, accel := (0, 0, 0), gyro := (0, 0, 0), mag := (0, 0, 0),
    logLines := 0 }

end IMUServer

namespace IMUServer

theorem npmean_eq (xs : List ℚ) (h : xs ≠ []) : npmean xs = some (specMean xs) := by
  simp [npmean, specMean, h]

theorem npvar_eq (xs : List ℚ) (h : xs ≠ []) : npvar xs = some (specVariance xs) := by
  simp [npvar, npmean_eq xs h, specVariance]

theorem specVariance_nonneg (xs : List ℚ) : 0 ≤ specVariance xs := by
  apply div_nonneg
  · apply List.sum_nonneg
    intro x hx
    simp only [List.mem_map] at hx
    obtain ⟨y, _, rfl⟩ := hx
    positivity
  · exact_mod_cast Nat.zero_le _

theorem npvar_some {xs : List ℚ} {v : ℚ} (h : npvar xs = some v) : v = specVariance xs := by
  by_cases hx : xs = []
  · subst hx
    simp [npvar, npmean] at h
  · rw [npvar_eq xs hx] at h
    injection h with h2
    exact h2.symm

theorem pyMaxZero_nonneg (base scale : ℚ) (o : Option ℚ) : 0 ≤ pyMaxZero base scale o := by
  cases o with
  | none => simp [pyMaxZero]
  | some v => exact le_max_left _ _

theorem pyMaxZero_le (base scale : ℚ) (hb : 0 ≤ base) (hs : 0 ≤ scale) (o : Option ℚ)
    (ho : ∀ v, o = some v → 0 ≤ v) : pyMaxZero base scale o ≤ base := by
  cases o with
  | none => simpa [pyMaxZero] using hb
  | some v =>
      have hv := ho v rfl
      simp only [pyMaxZero]
      apply max_le hb
      nlinarith

theorem npdiff_length (xs : List ℚ) : (npdiff xs).length = xs.length - 1 := by
  simp [npdiff]

/-- Claim C1: for every finalized Session, stabilityIndex equals
max(0, 100 - 10 x the mean of the per-axis acceleration variances), lies in
[0, 100], returns 100 when all three acceleration variances are 0, returns
0 when each axis has variance 10, and returns 0 without raising on an empty
acceleration channel. -/
theorem C1_stability_index (ax ay az : List ℚ) :
    (ax ≠ [] → ay ≠ [] → az ≠ [] →
      calculate_stability_index ax ay az = specStability ax ay az) ∧
    (0 ≤ calculate_stability_index ax ay az ∧
      calculate_stability_index ax ay az ≤ 100) ∧
    (ax ≠ [] → ay ≠ [] → az ≠ [] → specVariance ax = 0 → specVariance ay = 0 →
      specVariance az = 0 → calculate_stability_index ax ay az = 100) ∧
    (ax ≠ [] → ay ≠ [] → az ≠ [] → specVariance ax = 10 → specVariance ay = 10 →
      specVariance az = 10 → calculate_stability_index ax ay az = 0) ∧
    (ax = [] → calculate_stability_index ax ay az = 0) := by
  have hmain : ax ≠ [] → ay ≠ [] → az ≠ [] →
      calculate_stability_index ax ay az = specStability ax ay az := by
    intro hx hy hz
    simp only [calculate_stability_index, if_neg hx, npvar_eq ax hx, npvar_eq ay hy,
      npvar_eq az hz, avg3, pyMaxZero, specStability]
    congr 1
    ring
  refine ⟨hmain, ⟨?_, ?_⟩, ?_, ?_, ?_⟩
  · by_cases hx : ax = []
    · simp [calculate_stability_index, hx]
    · simp only [calculate_stability_index, if_neg hx]
      exact pyMaxZero_nonneg _ _ _
  · by_cases hx : ax = []
    · simp [calculate_stability_index, hx]
    · simp only [calculate_stability_index, if_neg hx]
      apply pyMaxZero_le _ _ (by norm_num) (by norm_num)
      intro v hv
      cases h1 : npvar ax with
      | none => rw [h1] at hv; simp [avg3] at hv
      | some a =>
          cases h2 : npvar ay with
          | none => rw [h1, h2] at hv; simp [avg3] at hv
          | some b =>
              cases h3 : npvar az with
              | none => rw [h1, h2, h3] at hv; simp [avg3] at hv
              | some c =>
                  rw [h1, h2, h3] at hv
                  simp only [avg3, Option.some.injEq] at hv
                  have ha : 0 ≤ a := (npvar_some h1) ▸ specVariance_nonneg ax
                  have hb : 0 ≤ b := (npvar_some h2) ▸ specVariance_nonneg ay
                  have hc : 0 ≤ c := (npvar_some h3) ▸ specVariance_nonneg az
                  rw [← hv]
                  positivity
  · intro hx hy hz h1 h2 h3
    rw [hmain hx hy hz, specStability, h1, h2, h3]
    norm_num
  · intro hx hy hz h1 h2 h3
    rw [hmain hx hy hz, specStability, h1, h2, h3]
    norm_num
  · intro h
    simp [calculate_stability_index, h]

theorem C1_stability_index_witness :
    (calculate_stability_index [5, 5] [5, 5] [5, 5] = 100 ∧
      calculate_stability_index [5, 5] [5, 5] [5, 5] =
        specStability [5, 5] [5, 5] [5, 5]) ∧
    calculate_stability_index [-4, -2, 2, 4] [-4, -2, 2, 4] [-4, -2, 2, 4] = 0 ∧
    calculate_stability_index [] [1] [1] = 0 := by
  refine ⟨⟨?_, ?_⟩, ?_, ?_⟩
  · exact (C1_stability_index [5, 5] [5, 5] [5, 5]).2.2.1 (by decide) (by decide)
      (by decide) (by norm_num [specVariance, specMean])
      (by norm_num [specVariance, specMean]) (by norm_num [specVariance, specMean])
  · exact (C1_stability_index [5, 5] [5, 5] [5, 5]).1 (by decide) (by decide) (by decide)
  · exact (C1_stability_index [-4, -2, 2, 4] [-4, -2, 2, 4] [-4, -2, 2, 4]).2.2.2.1
      (by decide) (by decide) (by decide) (by norm_num [specVariance, specMean])
      (by norm_num [specVariance, specMean]) (by norm_num [specVariance, specMean])
  · exact (C1_stability_index [] [1] [1]).2.2.2.2 rfl

/-- Claim C2: movementEfficiency returns 0.0, without raising and without
an undefined result, whenever the gyroscope channel holds fewer than two
samples; with two or more samples per axis it equals
max(0, 100 - 20 x the mean over the axes of the mean absolute first
difference of consecutive gyroscope samples). -/
theorem C2_movement_efficiency (gx gy gz : List ℚ) :
    (gx.length < 2 → calculate_movement_efficiency gx gy gz = 0) ∧
    (2 ≤ gx.length → 2 ≤ gy.length → 2 ≤ gz.length →
      calculate_movement_efficiency gx gy gz = specEfficiency gx gy gz) := by
  constructor
  · intro h
    match gx, h with
    | [], _ => simp [calculate_movement_efficiency]
    | [a], _ =>
        simp [calculate_movement_efficiency, npdiff, npmean, avg3, pyMaxZero]
  · intro h1 h2 h3
    have hgx : gx ≠ [] := by intro hcon; rw [hcon] at h1; simp at h1
    have d1 : ((npdiff gx).map fun v => |v|) ≠ [] := by
      apply List.ne_nil_of_length_pos
      rw [List.length_map, npdiff_length]
      omega
    have d2 : ((npdiff gy).map fun v => |v|) ≠ [] := by
      apply List.ne_nil_of_length_pos
      rw [List.length_map, npdiff_length]
      omega
    have d3 : ((npdiff gz).map fun v => |v|) ≠ [] := by
      apply List.ne_nil_of_length_pos
      rw [List.length_map, npdiff_length]
      omega
    simp only [calculate_movement_efficiency, if_neg hgx, npmean_eq _ d1, npmean_eq _ d2,
      npmean_eq _ d3, avg3, pyMaxZero, specEfficiency, specMeanAbsDiff]
    congr 1
    ring

theorem C2_movement_efficiency_witness :
    calculate_movement_efficiency [0] [0] [0] = 0 ∧
    calculate_movement_efficiency [0, 1] [0, 1] [0, 1] =
      specEfficiency [0, 1] [0, 1] [0, 1] := by
  exact ⟨(C2_movement_efficiency [0] [0] [0]).1 (by decide),
    (C2_movement_efficiency [0, 1] [0, 1] [0, 1]).2 (by decide) (by decide) (by decide)⟩

theorem leBytes4_eq (x : ℕ) :
    leBytes 4 x = [x % 256, x / 256 % 256, x / 256 / 256 % 256, x / 256 / 256 / 256 % 256] :=
  rfl

theorem leBytes2_eq (x : ℕ) : leBytes 2 x = [x % 256, x / 256 % 256] := rfl

theorem leValue_leBytes4 (x : ℕ) (h : x < 2 ^ 32) : leValue (leBytes 4 x) = x := by
  rw [leBytes4_eq]
  simp only [leValue, List.foldr]
  norm_num at h ⊢
  omega

theorem leValue_leBytes2 (x : ℕ) (h : x < 2 ^ 16) : leValue (leBytes 2 x) = x := by
  rw [leBytes2_eq]
  simp only [leValue, List.foldr]
  norm_num at h ⊢
  omega

theorem unpack_pack_fff (x y z : ℕ) (hx : x < 2 ^ 32) (hy : y < 2 ^ 32) (hz : z < 2 ^ 32) :
    unpack_fff (pack_fff x y z) = some (x, y, z) := by
  have ex := leValue_leBytes4 x hx
  have ey := leValue_leBytes4 y hy
  have ez := leValue_leBytes4 z hz
  rw [leBytes4_eq] at ex ey ez
  simp only [pack_fff, leBytes4_eq, List.cons_append, List.nil_append, unpack_fff]
  rw [ex, ey, ez]

theorem unpack_pack_6H (v0 v1 v2 v3 v4 v5 : ℕ) (h0 : v0 < 2 ^ 16) (h1 : v1 < 2 ^ 16)
    (h2 : v2 < 2 ^ 16) (h3 : v3 < 2 ^ 16) (h4 : v4 < 2 ^ 16) (h5 : v5 < 2 ^ 16) :
    unpack_6H (pack_6H v0 v1 v2 v3 v4 v5) = some [v0, v1, v2, v3, v4, v5] := by
  have e0 := leValue_leBytes2 v0 h0
  have e1 := leValue_leBytes2 v1 h1
  have e2 := leValue_leBytes2 v2 h2
  have e3 := leValue_leBytes2 v3 h3
  have e4 := leValue_leBytes2 v4 h4
  have e5 := leValue_leBytes2 v5 h5
  rw [leBytes2_eq] at e0 e1 e2 e3 e4 e5
  simp only [pack_6H, leBytes2_eq, List.cons_append, List.nil_append, unpack_6H]
  rw [e0, e1, e2, e3, e4, e5]

/-- Claim C3: a request is a fixed 4-byte frame, and decoding the matching
response of each request kind recovers the encoded values bit-for-bit:
sensor payloads are three little-endian 32-bit fields (float32 bit
patterns) and the auxiliary-game payload is six little-endian 16-bit
unsigned integers. -/
theorem C3_codec_round_trip :
    (∀ k : RequestKind, encodeRequest k = [requestByte k, 1, 2, 3] ∧
      (encodeRequest k).length = REQUEST_SIZE) ∧
    (∀ k : RequestKind, k ≠ .startAuxiliaryGame → ∀ x y z : ℕ,
      x < 2 ^ 32 → y < 2 ^ 32 → z < 2 ^ 32 →
      decodeResponse (requestByte k) (pack_fff x y z) =
        some (.sensorSample (requestByte k) x y z)) ∧
    (∀ v0 v1 v2 v3 v4 v5 : ℕ, v0 < 2 ^ 16 → v1 < 2 ^ 16 → v2 < 2 ^ 16 →
      v3 < 2 ^ 16 → v4 < 2 ^ 16 → v5 < 2 ^ 16 →
      decodeResponse (requestByte .startAuxiliaryGame) (pack_6H v0 v1 v2 v3 v4 v5) =
        some (.gameResult [v0, v1, v2, v3, v4, v5])) := by
  refine ⟨fun k => ⟨rfl, by cases k <;> rfl⟩, ?_, ?_⟩
  · intro k hk x y z hx hy hz
    have h := unpack_pack_fff x y z hx hy hz
    cases k with
    | readAcceleration =>
        simp [decodeResponse, requestByte, REQ_READ_ACCELERATION, h]
    | readGyroscope =>
        simp [decodeResponse, requestByte, REQ_READ_ACCELERATION, REQ_READ_GYROSCOPE, h]
    | readMagnetometer =>
        simp [decodeResponse, requestByte, REQ_READ_ACCELERATION, REQ_READ_GYROSCOPE,
          REQ_READ_MAGNETOMETER, h]
    | startAuxiliaryGame => exact absurd rfl hk
  · intro v0 v1 v2 v3 v4 v5 h0 h1 h2 h3 h4 h5
    have h := unpack_pack_6H v0 v1 v2 v3 v4 v5 h0 h1 h2 h3 h4 h5
    simp [decodeResponse, requestByte, REQ_READ_ACCELERATION, REQ_READ_GYROSCOPE,
      REQ_READ_MAGNETOMETER, REQ_START_LED_GAME, h]

theorem C3_codec_round_trip_witness :
    decodeResponse (requestByte .readGyroscope) (pack_fff 1 2 3) =
      some (.sensorSample (requestByte .readGyroscope) 1 2 3) ∧
    decodeResponse (requestByte .startAuxiliaryGame) (pack_6H 1 2 3 4 5 65535) =
      some (.gameResult [1, 2, 3, 4, 5, 65535]) :=
  ⟨C3_codec_round_trip.2.1 .readGyroscope (by decide) 1 2 3 (by norm_num) (by norm_num)
      (by norm_num),
    C3_codec_round_trip.2.2 1 2 3 4 5 65535 (by norm_num) (by norm_num) (by norm_num)
      (by norm_num) (by norm_num) (by norm_num)⟩

theorem ledGameStep_ds (s : ServerState) : (ledGameStep s).ds = s.ds := by
  unfold ledGameStep; split <;> rfl

theorem ledGameStep_cache (s : ServerState) : (ledGameStep s).cache = s.cache := by
  unfold ledGameStep; split <;> rfl

theorem ledGameStep_link (s : ServerState) : (ledGameStep s).link = s.link := by
  unfold ledGameStep; split <;> rfl

theorem ledGameStep_counter (s : ServerState) :
    (ledGameStep s).ledCounter = if s.ledCounter + 1 ≥ 10 then 0 else s.ledCounter + 1 := by
  unfold ledGameStep; split <;> simp_all

theorem ledGameStep_games (s : ServerState) :
    (ledGameStep s).gamesIssued = s.gamesIssued +
      (if s.ledCounter + 1 ≥ 10 then (if s.link.connected then 1 else 0) else 0) := by
  unfold ledGameStep; split <;> simp_all

theorem reconnectIfNeeded_ds (s : ServerState) : (reconnectIfNeeded s).ds = s.ds := by
  unfold reconnectIfNeeded; split <;> rfl

theorem reconnectIfNeeded_cache (s : ServerState) :
    (reconnectIfNeeded s).cache = s.cache := by
  unfold reconnectIfNeeded; split <;> rfl

theorem reconnectIfNeeded_connected (s : ServerState) :
    (reconnectIfNeeded s).link.connected = true := by
  unfold reconnectIfNeeded; split <;> simp_all

theorem reconnectIfNeeded_of_connected {s : ServerState} (h : s.link.connected = true) :
    reconnectIfNeeded s = s := by
  unfold reconnectIfNeeded; simp [h]

theorem reconnectIfNeeded_of_disconnected {s : ServerState} (h : s.link.connected = false) :
    reconnectIfNeeded s =
      { s with link := { s.link with connected := true }, ledCounter := 0 } := by
  unfold reconnectIfNeeded; simp [h]

theorem stepCycle_ds (s : ServerState) (c : CycleInput) :
    (stepCycle s c).ds = appendSamples s.ds
      (recvChain (reconnectIfNeeded s).cache (reconnectIfNeeded s).link c).1 c.t := by
  simp only [stepCycle, ledGameStep_ds, reconnectIfNeeded_ds]

theorem stepCycle_cache (s : ServerState) (c : CycleInput) :
    (stepCycle s c).cache =
      (recvChain (reconnectIfNeeded s).cache (reconnectIfNeeded s).link c).1 := by
  simp only [stepCycle, ledGameStep_cache]

theorem stepCycle_link (s : ServerState) (c : CycleInput) :
    (stepCycle s c).link =
      (recvChain (reconnectIfNeeded s).cache (reconnectIfNeeded s).link c).2 := by
  simp only [stepCycle, ledGameStep_link]

theorem stepCycle_counter (s : ServerState) (c : CycleInput) :
    (stepCycle s c).ledCounter =
      if (reconnectIfNeeded s).ledCounter + 1 ≥ 10 then 0
      else (reconnectIfNeeded s).ledCounter + 1 := by
  simp only [stepCycle, ledGameStep_counter]

theorem stepCycle_games (s : ServerState) (c : CycleInput) :
    (stepCycle s c).gamesIssued = (reconnectIfNeeded s).gamesIssued +
      (if (reconnectIfNeeded s).ledCounter + 1 ≥ 10 then
        (if (recvChain (reconnectIfNeeded s).cache (reconnectIfNeeded s).link c).2.connected
          then 1 else 0)
      else 0) := by
  simp only [stepCycle, ledGameStep_games]

theorem runCycles_timestamps (cs : List CycleInput) : ∀ s : ServerState,
    (runCycles s cs).ds.timestamps = s.ds.timestamps ++ cs.map CycleInput.t := by
  induction cs with
  | nil => intro s; simp [runCycles]
  | cons c cs ih =>
      intro s
      calc (runCycles s (c :: cs)).ds.timestamps
          = (runCycles (stepCycle s c) cs).ds.timestamps := rfl
        _ = (stepCycle s c).ds.timestamps ++ cs.map CycleInput.t := ih _
        _ = (s.ds.timestamps ++ [c.t]) ++ cs.map CycleInput.t := by
              rw [stepCycle_ds]; rfl
        _ = s.ds.timestamps ++ (c :: cs).map CycleInput.t := by simp

theorem runCycles_lengths (cs : List CycleInput) : ∀ s : ServerState,
    (runCycles s cs).ds.acc_x.length = s.ds.acc_x.length + cs.length ∧
    (runCycles s cs).ds.acc_y.length = s.ds.acc_y.length + cs.length ∧
    (runCycles s cs).ds.acc_z.length = s.ds.acc_z.length + cs.length ∧
    (runCycles s cs).ds.gyro_x.length = s.ds.gyro_x.length + cs.length ∧
    (runCycles s cs).ds.gyro_y.length = s.ds.gyro_y.length + cs.length ∧
    (runCycles s cs).ds.gyro_z.length = s.ds.gyro_z.length + cs.length ∧
    (runCycles s cs).ds.mag_x.length = s.ds.mag_x.length + cs.length ∧
    (runCycles s cs).ds.mag_y.length = s.ds.mag_y.length + cs.length ∧
    (runCycles s cs).ds.mag_z.length = s.ds.mag_z.length + cs.length := by
  induction cs with
  | nil => intro s; simp [runCycles]
  | cons c cs ih =>
      intro s
      have hstep := stepCycle_ds s c
      have h := ih (stepCycle s c)
      have hrw : runCycles s (c :: cs) = runCycles (stepCycle s c) cs := rfl
      rw [hrw]
      have e1 : (stepCycle s c).ds.acc_x.length = s.ds.acc_x.length + 1 := by
        rw [hstep]; simp [appendSamples]
      have e2 : (stepCycle s c).ds.acc_y.length = s.ds.acc_y.length + 1 := by
        rw [hstep]; simp [appendSamples]
      have e3 : (stepCycle s c).ds.acc_z.length = s.ds.acc_z.length + 1 := by
        rw [hstep]; simp [appendSamples]
      have e4 : (stepCycle s c).ds.gyro_x.length = s.ds.gyro_x.length + 1 := by
        rw [hstep]; simp [appendSamples]
      have e5 : (stepCycle s c).ds.gyro_y.length = s.ds.gyro_y.length + 1 := by
        rw [hstep]; simp [appendSamples]
      have e6 : (stepCycle s c).ds.gyro_z.length = s.ds.gyro_z.length + 1 := by
        rw [hstep]; simp [appendSamples]
      have e7 : (stepCycle s c).ds.mag_x.length = s.ds.mag_x.length + 1 := by
        rw [hstep]; simp [appendSamples]
      have e8 : (stepCycle s c).ds.mag_y.length = s.ds.mag_y.length + 1 := by
        rw [hstep]; simp [appendSamples]
      have e9 : (stepCycle s c).ds.mag_z.length = s.ds.mag_z.length + 1 := by
        rw [hstep]; simp [appendSamples]
      simp only [List.length_cons]
      omega

/-- Claim C4: after any N poll cycles, regardless of decode failures, each
of the three sensor channels holds exactly N samples per axis, the recorded
timestamps are exactly the cycle timestamps in order, and they are
monotonically non-decreasing whenever the cycle clock is. -/
theorem C4_channel_lengths (cs : List CycleInput) :
    ((runCycles initState cs).ds.acc_x.length = cs.length ∧
      (runCycles initState cs).ds.acc_y.length = cs.length ∧
      (runCycles initState cs).ds.acc_z.length = cs.length) ∧
    ((runCycles initState cs).ds.gyro_x.length = cs.length ∧
      (runCycles initState cs).ds.gyro_y.length = cs.length ∧
      (runCycles initState cs).ds.gyro_z.length = cs.length) ∧
    ((runCycles initState cs).ds.mag_x.length = cs.length ∧
      (runCycles initState cs).ds.mag_y.length = cs.length ∧
      (runCycles initState cs).ds.mag_z.length = cs.length) ∧
    (runCycles initState cs).ds.timestamps = cs.map CycleInput.t ∧
    (List.Chain' (fun a b => a ≤ b) (cs.map CycleInput.t) →
      List.Chain' (fun a b => a ≤ b) (runCycles initState cs).ds.timestamps) := by
  have hl := runCycles_lengths cs initState
  have ht := runCycles_timestamps cs initState
  have hts : (runCycles initState cs).ds.timestamps = cs.map CycleInput.t := by
    have h0 : initState.ds.timestamps = [] := rfl
    rw [ht, h0, List.nil_append]
  have z1 : initState.ds.acc_x.length = 0 := rfl
  have z2 : initState.ds.acc_y.length = 0 := rfl
  have z3 : initState.ds.acc_z.length = 0 := rfl
  have z4 : initState.ds.gyro_x.length = 0 := rfl
  have z5 : initState.ds.gyro_y.length = 0 := rfl
  have z6 : initState.ds.gyro_z.length = 0 := rfl
  have z7 : initState.ds.mag_x.length = 0 := rfl
  have z8 : initState.ds.mag_y.length = 0 := rfl
  have z9 : initState.ds.mag_z.length = 0 := rfl
  refine ⟨⟨by omega, by omega, by omega⟩, ⟨by omega, by omega, by omega⟩,
    ⟨by omega, by omega, by omega⟩, hts, fun h => by rw [hts]; exact h⟩

theorem C4_channel_lengths_witness :
    (runCycles initState [quietCycle, quietCycle]).ds.acc_x.length = 2 ∧
    List.Chain' (fun a b => a ≤ b)
      (runCycles initState [quietCycle, quietCycle]).ds.timestamps := by
  refine ⟨(C4_channel_lengths [quietCycle, quietCycle]).1.1, ?_⟩
  exact (C4_channel_lengths [quietCycle, quietCycle]).2.2.2.2
    (by simp [quietCycle, List.chain'_cons])

theorem recvAcceleration_badFrame (cache : Caches) (link : LinkState) :
    recvAcceleration cache link .badFrame = (cache, link) := by
  unfold recvAcceleration; split <;> rfl

theorem recvGyroscope_badFrame (cache : Caches) (link : LinkState) :
    recvGyroscope cache link .badFrame = (cache, link) := by
  unfold recvGyroscope; split <;> rfl

theorem recvMagnetometer_badFrame (cache : Caches) (link : LinkState) :
    recvMagnetometer cache link .badFrame = (cache, link) := by
  unfold recvMagnetometer; split <;> rfl

theorem recvAcceleration_ioError (cache : Caches) (link : LinkState) :
    (recvAcceleration cache link .ioError).1 = cache := by
  unfold recvAcceleration; split <;> rfl

theorem recvGyroscope_ioError (cache : Caches) (link : LinkState) :
    (recvGyroscope cache link .ioError).1 = cache := by
  unfold recvGyroscope; split <;> rfl

theorem recvMagnetometer_ioError (cache : Caches) (link : LinkState) :
    (recvMagnetometer cache link .ioError).1 = cache := by
  unfold recvMagnetometer; split <;> rfl

theorem recvAcceleration_pres (cache : Caches) (link : LinkState) (o : ChanOutcome) :
    (recvAcceleration cache link o).1.gyro_x = cache.gyro_x ∧
    (recvAcceleration cache link o).1.gyro_y = cache.gyro_y ∧
    (recvAcceleration cache link o).1.gyro_z = cache.gyro_z ∧
    (recvAcceleration cache link o).1.mag_x = cache.mag_x ∧
    (recvAcceleration cache link o).1.mag_y = cache.mag_y ∧
    (recvAcceleration cache link o).1.mag_z = cache.mag_z := by
  cases o with
  | ok x y z lg =>
      by_cases h : link.connected <;> cases lg <;>
        simp [recvAcceleration, processAcceleration, h]
  | badFrame => by_cases h : link.connected <;> simp [recvAcceleration, h]
  | ioError => by_cases h : link.connected <;> simp [recvAcceleration, h]

theorem recvGyroscope_pres (cache : Caches) (link : LinkState) (o : ChanOutcome) :
    (recvGyroscope cache link o).1.accel_x = cache.accel_x ∧
    (recvGyroscope cache link o).1.accel_y = cache.accel_y ∧
    (recvGyroscope cache link o).1.accel_z = cache.accel_z ∧
    (recvGyroscope cache link o).1.mag_x = cache.mag_x ∧
    (recvGyroscope cache link o).1.mag_y = cache.mag_y ∧
    (recvGyroscope cache link o).1.mag_z = cache.mag_z := by
  cases o with
  | ok x y z lg =>
      by_cases h : link.connected <;> cases lg <;>
        simp [recvGyroscope, processGyroscope, h]
  | badFrame => by_cases h : link.connected <;> simp [recvGyroscope, h]
  | ioError => by_cases h : link.connected <;> simp [recvGyroscope, h]

theorem recvMagnetometer_pres (cache : Caches) (link : LinkState) (o : ChanOutcome) :
    (recvMagnetometer cache link o).1.accel_x = cache.accel_x ∧
    (recvMagnetometer cache link o).1.accel_y = cache.accel_y ∧
    (recvMagnetometer cache link o).1.accel_z = cache.accel_z ∧
    (recvMagnetometer cache link o).1.gyro_x = cache.gyro_x ∧
    (recvMagnetometer cache link o).1.gyro_y = cache.gyro_y ∧
    (recvMagnetometer cache link o).1.gyro_z = cache.gyro_z := by
  cases o with
  | ok x y z lg =>
      by_cases h : link.connected <;> cases lg <;>
        simp [recvMagnetometer, processMagnetometer, h]
  | badFrame => by_cases h : link.connected <;> simp [recvMagnetometer, h]
  | ioError => by_cases h : link.connected <;> simp [recvMagnetometer, h]

theorem recvChain_accel_of_not_ok (cache : Caches) (link : LinkState) (c : CycleInput)
    (h : ∀ x y z lg, c.acc ≠ .ok x y z lg) :
    (recvChain cache link c).1.accel_x = cache.accel_x ∧
    (recvChain cache link c).1.accel_y = cache.accel_y ∧
    (recvChain cache link c).1.accel_z = cache.accel_z := by
  have h1 : (recvAcceleration cache link c.acc).1 = cache := by
    cases ho : c.acc with
    | ok x y z lg => exact absurd ho (h x y z lg)
    | badFrame => rw [recvAcceleration_badFrame]
    | ioError => rw [recvAcceleration_ioError]
  simp only [recvChain]
  rw [h1]
  have hg := recvGyroscope_pres cache (recvAcceleration cache link c.acc).2 c.gyro
  have hm := recvMagnetometer_pres
    (recvGyroscope cache (recvAcceleration cache link c.acc).2 c.gyro).1
    (recvGyroscope cache (recvAcceleration cache link c.acc).2 c.gyro).2 c.mag
  exact ⟨hm.1.trans hg.1, hm.2.1.trans hg.2.1, hm.2.2.1.trans hg.2.2.1⟩

theorem recvChain_gyro_of_not_ok (cache : Caches) (link : LinkState) (c : CycleInput)
    (h : ∀ x y z lg, c.gyro ≠ .ok x y z lg) :
    (recvChain cache link c).1.gyro_x = cache.gyro_x ∧
    (recvChain cache link c).1.gyro_y = cache.gyro_y ∧
    (recvChain cache link c).1.gyro_z = cache.gyro_z := by
  have ha := recvAcceleration_pres cache link c.acc
  have h1 : (recvGyroscope (recvAcceleration cache link c.acc).1
      (recvAcceleration cache link c.acc).2 c.gyro).1 =
      (recvAcceleration cache link c.acc).1 := by
    cases ho : c.gyro with
    | ok x y z lg => exact absurd ho (h x y z lg)
    | badFrame => rw [recvGyroscope_badFrame]
    | ioError => rw [recvGyroscope_ioError]
  simp only [recvChain]
  rw [h1]
  have hm := recvMagnetometer_pres (recvAcceleration cache link c.acc).1
    (recvGyroscope (recvAcceleration cache link c.acc).1
      (recvAcceleration cache link c.acc).2 c.gyro).2 c.mag
  exact ⟨hm.2.2.2.1.trans ha.1, hm.2.2.2.2.1.trans ha.2.1, hm.2.2.2.2.2.trans ha.2.2.1⟩

theorem recvChain_mag_of_not_ok (cache : Caches) (link : LinkState) (c : CycleInput)
    (h : ∀ x y z lg, c.mag ≠ .ok x y z lg) :
    (recvChain cache link c).1.mag_x = cache.mag_x ∧
    (recvChain cache link c).1.mag_y = cache.mag_y ∧
    (recvChain cache link c).1.mag_z = cache.mag_z := by
  have ha := recvAcceleration_pres cache link c.acc
  have hg := recvGyroscope_pres (recvAcceleration cache link c.acc).1
    (recvAcceleration cache link c.acc).2 c.gyro
  have h1 : (recvMagnetometer (recvGyroscope (recvAcceleration cache link c.acc).1
      (recvAcceleration cache link c.acc).2 c.gyro).1
      (recvGyroscope (recvAcceleration cache link c.acc).1
        (recvAcceleration cache link c.acc).2 c.gyro).2 c.mag).1 =
      (recvGyroscope (recvAcceleration cache link c.acc).1
        (recvAcceleration cache link c.acc).2 c.gyro).1 := by
    cases ho : c.mag with
    | ok x y z lg => exact absurd ho (h x y z lg)
    | badFrame => rw [recvMagnetometer_badFrame]
    | ioError => rw [recvMagnetometer_ioError]
  simp only [recvChain]
  rw [h1]
  exact ⟨hg.2.2.2.1.trans ha.2.2.2.1, hg.2.2.2.2.1.trans ha.2.2.2.2.1,
    hg.2.2.2.2.2.trans ha.2.2.2.2.2⟩

theorem stepCycle_accel_fallback (s : ServerState) (c : CycleInput)
    (h : ∀ x y z lg, c.acc ≠ .ok x y z lg) :
    (stepCycle s c).cache.accel_x = s.cache.accel_x ∧
    (stepCycle s c).cache.accel_y = s.cache.accel_y ∧
    (stepCycle s c).cache.accel_z = s.cache.accel_z ∧
    (stepCycle s c).ds.acc_x = s.ds.acc_x ++ [s.cache.accel_x] ∧
    (stepCycle s c).ds.acc_y = s.ds.acc_y ++ [s.cache.accel_y] ∧
    (stepCycle s c).ds.acc_z = s.ds.acc_z ++ [s.cache.accel_z] := by
  have hc := recvChain_accel_of_not_ok (reconnectIfNeeded s).cache
    (reconnectIfNeeded s).link c h
  have ex := congrArg Caches.accel_x (reconnectIfNeeded_cache s)
  have ey := congrArg Caches.accel_y (reconnectIfNeeded_cache s)
  have ez := congrArg Caches.accel_z (reconnectIfNeeded_cache s)
  refine ⟨?_, ?_, ?_, ?_, ?_, ?_⟩
  · rw [stepCycle_cache]; exact hc.1.trans ex
  · rw [stepCycle_cache]; exact hc.2.1.trans ey
  · rw [stepCycle_cache]; exact hc.2.2.trans ez
  · rw [stepCycle_ds]; show _ ++ _ = _; rw [hc.1.trans ex]
  · rw [stepCycle_ds]; show _ ++ _ = _; rw [hc.2.1.trans ey]
  · rw [stepCycle_ds]; show _ ++ _ = _; rw [hc.2.2.trans ez]

theorem stepCycle_gyro_fallback (s : ServerState) (c : CycleInput)
    (h : ∀ x y z lg, c.gyro ≠ .ok x y z lg) :
    (stepCycle s c).cache.gyro_x = s.cache.gyro_x ∧
    (stepCycle s c).cache.gyro_y = s.cache.gyro_y ∧
    (stepCycle s c).cache.gyro_z = s.cache.gyro_z ∧
    (stepCycle s c).ds.gyro_x = s.ds.gyro_x ++ [s.cache.gyro_x] ∧
    (stepCycle s c).ds.gyro_y = s.ds.gyro_y ++ [s.cache.gyro_y] ∧
    (stepCycle s c).ds.gyro_z = s.ds.gyro_z ++ [s.cache.gyro_z] := by
  have hc := recvChain_gyro_of_not_ok (reconnectIfNeeded s).cache
    (reconnectIfNeeded s).link c h
  have ex := congrArg Caches.gyro_x (reconnectIfNeeded_cache s)
  have ey := congrArg Caches.gyro_y (reconnectIfNeeded_cache s)
  have ez := congrArg Caches.gyro_z (reconnectIfNeeded_cache s)
  refine ⟨?_, ?_, ?_, ?_, ?_, ?_⟩
  · rw [stepCycle_cache]; exact hc.1.trans ex
  · rw [stepCycle_cache]; exact hc.2.1.trans ey
  · rw [stepCycle_cache]; exact hc.2.2.trans ez
  · rw [stepCycle_ds]; show _ ++ _ = _; rw [hc.1.trans ex]
  · rw [stepCycle_ds]; show _ ++ _ = _; rw [hc.2.1.trans ey]
  · rw [stepCycle_ds]; show _ ++ _ = _; rw [hc.2.2.trans ez]

theorem stepCycle_mag_fallback (s : ServerState) (c : CycleInput)
    (h : ∀ x y z lg, c.mag ≠ .ok x y z lg) :
    (stepCycle s c).cache.mag_x = s.cache.mag_x ∧
    (stepCycle s c).cache.mag_y = s.cache.mag_y ∧
    (stepCycle s c).cache.mag_z = s.cache.mag_z ∧
    (stepCycle s c).ds.mag_x = s.ds.mag_x ++ [s.cache.mag_x] ∧
    (stepCycle s c).ds.mag_y = s.ds.mag_y ++ [s.cache.mag_y] ∧
    (stepCycle s c).ds.mag_z = s.ds.mag_z ++ [s.cache.mag_z] := by
  have hc := recvChain_mag_of_not_ok (reconnectIfNeeded s).cache
    (reconnectIfNeeded s).link c h
  have ex := congrArg Caches.mag_x (reconnectIfNeeded_cache s)
  have ey := congrArg Caches.mag_y (reconnectIfNeeded_cache s)
  have ez := congrArg Caches.mag_z (reconnectIfNeeded_cache s)
  refine ⟨?_, ?_, ?_, ?_, ?_, ?_⟩
  · rw [stepCycle_cache]; exact hc.1.trans ex
  · rw [stepCycle_cache]; exact hc.2.1.trans ey
  · rw [stepCycle_cache]; exact hc.2.2.trans ez
  · rw [stepCycle_ds]; show _ ++ _ = _; rw [hc.1.trans ex]
  · rw [stepCycle_ds]; show _ ++ _ = _; rw [hc.2.1.trans ey]
  · rw [stepCycle_ds]; show _ ++ _ = _; rw [hc.2.2.trans ez]

/-- Claim C5: when a channel's decode fails on a cycle, the value appended
to that channel's sequences on that cycle equals the channel's cache from
the previous cycle, and a channel's cache changes only when that channel's
response decodes successfully (it is never reset mid-session). -/
theorem C5_cache_fallback (s : ServerState) (c : CycleInput) :
    (c.acc = .badFrame →
      (stepCycle s c).cache.accel_x = s.cache.accel_x ∧
      (stepCycle s c).ds.acc_x = s.ds.acc_x ++ [s.cache.accel_x] ∧
      (stepCycle s c).ds.acc_y = s.ds.acc_y ++ [s.cache.accel_y] ∧
      (stepCycle s c).ds.acc_z = s.ds.acc_z ++ [s.cache.accel_z]) ∧
    (c.gyro = .badFrame →
      (stepCycle s c).cache.gyro_x = s.cache.gyro_x ∧
      (stepCycle s c).ds.gyro_x = s.ds.gyro_x ++ [s.cache.gyro_x] ∧
      (stepCycle s c).ds.gyro_y = s.ds.gyro_y ++ [s.cache.gyro_y] ∧
      (stepCycle s c).ds.gyro_z = s.ds.gyro_z ++ [s.cache.gyro_z]) ∧
    (c.mag = .badFrame →
      (stepCycle s c).cache.mag_x = s.cache.mag_x ∧
      (stepCycle s c).ds.mag_x = s.ds.mag_x ++ [s.cache.mag_x] ∧
      (stepCycle s c).ds.mag_y = s.ds.mag_y ++ [s.cache.mag_y] ∧
      (stepCycle s c).ds.mag_z = s.ds.mag_z ++ [s.cache.mag_z]) ∧
    ((∀ x y z lg, c.acc ≠ .ok x y z lg) →
      (stepCycle s c).cache.accel_x = s.cache.accel_x ∧
      (stepCycle s c).cache.accel_y = s.cache.accel_y ∧
      (stepCycle s c).cache.accel_z = s.cache.accel_z) ∧
    ((∀ x y z lg, c.gyro ≠ .ok x y z lg) →
      (stepCycle s c).cache.gyro_x = s.cache.gyro_x ∧
      (stepCycle s c).cache.gyro_y = s.cache.gyro_y ∧
      (stepCycle s c).cache.gyro_z = s.cache.gyro_z) ∧
    ((∀ x y z lg, c.mag ≠ .ok x y z lg) →
      (stepCycle s c).cache.mag_x = s.cache.mag_x ∧
      (stepCycle s c).cache.mag_y = s.cache.mag_y ∧
      (stepCycle s c).cache.mag_z = s.cache.mag_z) := by
  refine ⟨?_, ?_, ?_, ?_, ?_, ?_⟩
  · intro h
    have hb : ∀ x y z lg, c.acc ≠ .ok x y z lg := by intro x y z lg hcon; rw [h] at hcon; cases hcon
    obtain ⟨e1, _, _, e4, e5, e6⟩ := stepCycle_accel_fallback s c hb
    exact ⟨e1, e4, e5, e6⟩
  · intro h
    have hb : ∀ x y z lg, c.gyro ≠ .ok x y z lg := by intro x y z lg hcon; rw [h] at hcon; cases hcon
    obtain ⟨e1, _, _, e4, e5, e6⟩ := stepCycle_gyro_fallback s c hb
    exact ⟨e1, e4, e5, e6⟩
  · intro h
    have hb : ∀ x y z lg, c.mag ≠ .ok x y z lg := by intro x y z lg hcon; rw [h] at hcon; cases hcon
    obtain ⟨e1, _, _, e4, e5, e6⟩ := stepCycle_mag_fallback s c hb
    exact ⟨e1, e4, e5, e6⟩
  · intro h
    obtain ⟨e1, e2, e3, _, _, _⟩ := stepCycle_accel_fallback s c h
    exact ⟨e1, e2, e3⟩
  · intro h
    obtain ⟨e1, e2, e3, _, _, _⟩ := stepCycle_gyro_fallback s c h
    exact ⟨e1, e2, e3⟩
  · intro h
    obtain ⟨e1, e2, e3, _, _, _⟩ := stepCycle_mag_fallback s c h
    exact ⟨e1, e2, e3⟩

theorem C5_cache_fallback_witness :
    (stepCycle initState quietCycle).cache.accel_x = initState.cache.accel_x ∧
    (stepCycle initState quietCycle).ds.acc_x =
      initState.ds.acc_x ++ [initState.cache.accel_x] := by
  have h := (C5_cache_fallback initState quietCycle).1 rfl
  exact ⟨h.1, h.2.1⟩

theorem recvAcceleration_link_clean (cache : Caches) (link : LinkState) (o : ChanOutcome)
    (h : cleanOutcome o = true) (hc : link.connected = true) :
    (recvAcceleration cache link o).2.connected = true := by
  cases o with
  | ok x y z lg =>
      cases lg with
      | true => simp [recvAcceleration, processAcceleration, hc]
      | false => simp [cleanOutcome] at h
  | badFrame => simp [recvAcceleration, hc]
  | ioError => simp [cleanOutcome] at h

theorem recvGyroscope_link_clean (cache : Caches) (link : LinkState) (o : ChanOutcome)
    (h : cleanOutcome o = true) (hc : link.connected = true) :
    (recvGyroscope cache link o).2.connected = true := by
  cases o with
  | ok x y z lg =>
      cases lg with
      | true => simp [recvGyroscope, processGyroscope, hc]
      | false => simp [cleanOutcome] at h
  | badFrame => simp [recvGyroscope, hc]
  | ioError => simp [cleanOutcome] at h

theorem recvMagnetometer_link_clean (cache : Caches) (link : LinkState) (o : ChanOutcome)
    (h : cleanOutcome o = true) (hc : link.connected = true) :
    (recvMagnetometer cache link o).2.connected = true := by
  cases o with
  | ok x y z lg =>
      cases lg with
      | true => simp [recvMagnetometer, processMagnetometer, hc]
      | false => simp [cleanOutcome] at h
  | badFrame => simp [recvMagnetometer, hc]
  | ioError => simp [cleanOutcome] at h

theorem recvChain_link_clean (cache : Caches) (link : LinkState) (c : CycleInput)
    (h : cleanCycle c = true) (hc : link.connected = true) :
    (recvChain cache link c).2.connected = true := by
  have h' := h
  simp only [cleanCycle, Bool.and_eq_true] at h'
  obtain ⟨⟨h1, h2⟩, h3⟩ := h'
  simp only [recvChain]
  exact recvMagnetometer_link_clean _ _ _ h3
    (recvGyroscope_link_clean _ _ _ h2 (recvAcceleration_link_clean _ _ _ h1 hc))

theorem stepCycle_clean (s : ServerState) (c : CycleInput)
    (hs : s.link.connected = true) (hc : cleanCycle c = true) :
    (stepCycle s c).link.connected = true ∧
    (stepCycle s c).ledCounter =
      (if s.ledCounter + 1 ≥ 10 then 0 else s.ledCounter + 1) ∧
    (stepCycle s c).gamesIssued =
      s.gamesIssued + (if s.ledCounter + 1 ≥ 10 then 1 else 0) := by
  have hrec := reconnectIfNeeded_of_connected hs
  have hconn : (recvChain (reconnectIfNeeded s).cache
      (reconnectIfNeeded s).link c).2.connected = true := by
    rw [hrec]; exact recvChain_link_clean s.cache s.link c hc hs
  refine ⟨?_, ?_, ?_⟩
  · rw [stepCycle_link]; exact hconn
  · rw [stepCycle_counter, hrec]
  · rw [stepCycle_games, hrec]
    rw [hrec] at hconn
    rw [hconn]
    simp

theorem runCycles_clean_count (cs : List CycleInput) : ∀ s : ServerState,
    s.link.connected = true → s.ledCounter < 10 →
    (∀ c ∈ cs, cleanCycle c = true) →
    (runCycles s cs).link.connected = true ∧
    (runCycles s cs).ledCounter = (s.ledCounter + cs.length) % 10 ∧
    (runCycles s cs).gamesIssued = s.gamesIssued + (s.ledCounter + cs.length) / 10 := by
  induction cs with
  | nil =>
      intro s hs hlt _
      refine ⟨hs, ?_, ?_⟩ <;> simp [runCycles] <;> omega
  | cons c cs ih =>
      intro s hs hlt hcl
      have hc := hcl c (List.mem_cons_self c cs)
      obtain ⟨hconn, hled, hgames⟩ := stepCycle_clean s c hs hc
      have hlt2 : (stepCycle s c).ledCounter < 10 := by
        rw [hled]; split <;> omega
      have hrest := ih (stepCycle s c) hconn hlt2
        (fun c2 hc2 => hcl c2 (List.mem_cons_of_mem c hc2))
      obtain ⟨r1, r2, r3⟩ := hrest
      have hrw : runCycles s (c :: cs) = runCycles (stepCycle s c) cs := rfl
      rw [hrw]
      refine ⟨r1, ?_, ?_⟩
      · rw [r2, hled]
        simp only [List.length_cons]
        by_cases h10 : s.ledCounter + 1 ≥ 10
        · rw [if_pos h10]; omega
        · rw [if_neg h10]; omega
      · rw [r3, hgames, hled]
        simp only [List.length_cons]
        by_cases h10 : s.ledCounter + 1 ≥ 10
        · rw [if_pos h10, if_pos h10]; omega
        · rw [if_neg h10, if_neg h10]; omega

/-- Claim C6: in a run in which every cycle is clean (no send/receive
exception and no log-write failure, so the connection survives), the
auxiliary-game request is issued exactly on cycles 10, 20, 30, ...: after
any prefix of i cycles exactly i / 10 requests have been issued — so at
most one request per ten cycles and none on a non-multiple of ten — and a
50-cycle run issues exactly 5 requests. -/
theorem C6_led_game_cadence (cs : List CycleInput)
    (hcl : ∀ c ∈ cs, cleanCycle c = true) :
    (∀ i ≤ cs.length, (runCycles initState (cs.take i)).gamesIssued = i / 10) ∧
    (runCycles initState cs).gamesIssued = cs.length / 10 ∧
    (cs.length = 50 → (runCycles initState cs).gamesIssued = 5) := by
  have g0 : initState.gamesIssued = 0 := rfl
  have l0 : initState.ledCounter = 0 := rfl
  have h2 : (runCycles initState cs).gamesIssued = cs.length / 10 := by
    have h := (runCycles_clean_count cs initState rfl (by decide) hcl).2.2
    rw [g0, l0] at h
    simpa using h
  have hmain : ∀ i ≤ cs.length,
      (runCycles initState (cs.take i)).gamesIssued = i / 10 := by
    intro i hi
    have hcl2 : ∀ c ∈ cs.take i, cleanCycle c = true :=
      fun c hc => hcl c (List.take_subset i cs hc)
    have hlen : (cs.take i).length = i := by
      rw [List.length_take]; omega
    have h := (runCycles_clean_count (cs.take i) initState rfl (by decide) hcl2).2.2
    rw [g0, l0, hlen] at h
    simpa using h
  exact ⟨hmain, h2, fun h50 => by rw [h2, h50]⟩

theorem C6_led_game_cadence_witness :
    (runCycles initState (List.replicate 50 quietCycle)).gamesIssued = 5 :=
  (C6_led_game_cadence (List.replicate 50 quietCycle) (by decide)).2.2 (by decide)

theorem recvAcceleration_notConnected (cache : Caches) (link : LinkState) (o : ChanOutcome)
    (h : link.connected = false) : recvAcceleration cache link o = (cache, link) := by
  simp [recvAcceleration, h]

theorem recvGyroscope_notConnected (cache : Caches) (link : LinkState) (o : ChanOutcome)
    (h : link.connected = false) : recvGyroscope cache link o = (cache, link) := by
  simp [recvGyroscope, h]

theorem recvMagnetometer_notConnected (cache : Caches) (link : LinkState) (o : ChanOutcome)
    (h : link.connected = false) : recvMagnetometer cache link o = (cache, link) := by
  simp [recvMagnetometer, h]

theorem recvChain_acc_ioError (cache : Caches) (link : LinkState) (c : CycleInput)
    (hf : c.acc = .ioError) (h : link.connected = true) :
    recvChain cache link c = (cache, { link with connected := false }) := by
  simp only [recvChain, hf]
  have h1 : recvAcceleration cache link .ioError =
      (cache, { link with connected := false }) := by
    simp [recvAcceleration, h]
  rw [h1]
  have h2 : recvGyroscope (cache, ({ link with connected := false } : LinkState)).1
      (cache, ({ link with connected := false } : LinkState)).2 c.gyro =
      (cache, { link with connected := false }) :=
    recvGyroscope_notConnected _ _ _ rfl
  rw [h2]
  exact recvMagnetometer_notConnected _ _ _ rfl

theorem stepCycle_acc_len (s : ServerState) (c : CycleInput) :
    (stepCycle s c).ds.acc_x.length = s.ds.acc_x.length + 1 := by
  rw [stepCycle_ds]; simp [appendSamples]

/-- Claim C7 is refuted by this run: ten cycles in which cycle 9 suffers a
send/receive failure.  The claim predicts that the cycle counter survives
reconnection, so the auxiliary-game request would still be issued on
cycle 10 (one request in total); the code reaches cycle 10 with the local
counter reset by the recursive restart, so no request is issued in the run
and the counter stands at 1 after cycle 10. -/
theorem C7_cycle_retry_cex :
    (List.replicate 8 quietCycle ++ [failCycle] ++ [quietCycle]).length = 10 ∧
    (runCycles initState
      (List.replicate 8 quietCycle ++ [failCycle] ++ [quietCycle])).gamesIssued = 0 ∧
    (runCycles initState
      (List.replicate 8 quietCycle ++ [failCycle] ++ [quietCycle])).ledCounter = 1 := by
  refine ⟨rfl, rfl, rfl⟩

/-- Claim C7 amended: a send/receive failure inside a cycle closes the
socket via handle_disconnection; the failing cycle still completes with
cached values (one record per channel is appended; the cycle is neither
skipped nor retried); at the top of the next iteration the recursive
restart re-accepts a client and resets the local auxiliary-game counter to
0 — after one further cycle the counter is 1 no matter how many cycles
preceded the failure — while the session dataset and the channel caches
are preserved across the reconnection. -/
theorem C7_reconnect_resets_counter (s : ServerState) (c c2 : CycleInput)
    (hfail : c.acc = .ioError) (hconn : s.link.connected = true) :
    (stepCycle s c).link.connected = false ∧
    (stepCycle s c).cache = s.cache ∧
    (stepCycle s c).ds.acc_x = s.ds.acc_x ++ [s.cache.accel_x] ∧
    (stepCycle s c).ds.gyro_x = s.ds.gyro_x ++ [s.cache.gyro_x] ∧
    (stepCycle s c).ds.mag_x = s.ds.mag_x ++ [s.cache.mag_x] ∧
    (stepCycle (stepCycle s c) c2).ledCounter = 1 ∧
    (stepCycle (stepCycle s c) c2).ds.acc_x.length = s.ds.acc_x.length + 2 := by
  have hrec := reconnectIfNeeded_of_connected hconn
  have hch : recvChain (reconnectIfNeeded s).cache (reconnectIfNeeded s).link c =
      (s.cache, { s.link with connected := false }) := by
    rw [hrec]; exact recvChain_acc_ioError s.cache s.link c hfail hconn
  have hdisc : (stepCycle s c).link.connected = false := by
    rw [stepCycle_link, hch]
  refine ⟨hdisc, ?_, ?_, ?_, ?_, ?_, ?_⟩
  · rw [stepCycle_cache, hch]
  · rw [stepCycle_ds, hch]; simp [appendSamples]
  · rw [stepCycle_ds, hch]; simp [appendSamples]
  · rw [stepCycle_ds, hch]; simp [appendSamples]
  · rw [stepCycle_counter, reconnectIfNeeded_of_disconnected hdisc]
    simp
  · have l1 := stepCycle_acc_len s c
    have l2 := stepCycle_acc_len (stepCycle s c) c2
    omega

theorem C7_reconnect_resets_counter_witness :
    (stepCycle initState failCycle).link.connected = false ∧
    (stepCycle initState failCycle).cache = initState.cache ∧
    (stepCycle initState failCycle).ds.acc_x =
      initState.ds.acc_x ++ [initState.cache.accel_x] ∧
    (stepCycle initState failCycle).ds.gyro_x =
      initState.ds.gyro_x ++ [initState.cache.gyro_x] ∧
    (stepCycle initState failCycle).ds.mag_x =
      initState.ds.mag_x ++ [initState.cache.mag_x] ∧
    (stepCycle (stepCycle initState failCycle) quietCycle).ledCounter = 1 ∧
    (stepCycle (stepCycle initState failCycle) quietCycle).ds.acc_x.length =
      initState.ds.acc_x.length + 2 :=
  C7_reconnect_resets_counter initState failCycle quietCycle rfl rfl

/-- Claim C10: every channel cache is initialized to (0.0, 0.0, 0.0) at
server construction, so a channel whose decode fails on the very first
cycle appends the fabricated sample (0.0, 0.0, 0.0) to the Session for
that channel on cycle 1, rather than a gap or an error. -/
theorem C10_initial_cache (c : CycleInput) :
    (initState.cache.accel_x = 0 ∧ initState.cache.accel_y = 0 ∧
      initState.cache.accel_z = 0 ∧ initState.cache.gyro_x = 0 ∧
      initState.cache.gyro_y = 0 ∧ initState.cache.gyro_z = 0 ∧
      initState.cache.mag_x = 0 ∧ initState.cache.mag_y = 0 ∧
      initState.cache.mag_z = 0) ∧
    (c.acc = .badFrame →
      (stepCycle initState c).ds.acc_x = [(0 : ℚ)] ∧
      (stepCycle initState c).ds.acc_y = [(0 : ℚ)] ∧
      (stepCycle initState c).ds.acc_z = [(0 : ℚ)]) ∧
    (c.gyro = .badFrame →
      (stepCycle initState c).ds.gyro_x = [(0 : ℚ)] ∧
      (stepCycle initState c).ds.gyro_y = [(0 : ℚ)] ∧
      (stepCycle initState c).ds.gyro_z = [(0 : ℚ)]) ∧
    (c.mag = .badFrame →
      (stepCycle initState c).ds.mag_x = [(0 : ℚ)] ∧
      (stepCycle initState c).ds.mag_y = [(0 : ℚ)] ∧
      (stepCycle initState c).ds.mag_z = [(0 : ℚ)]) := by
  refine ⟨⟨rfl, rfl, rfl, rfl, rfl, rfl, rfl, rfl, rfl⟩, ?_, ?_, ?_⟩
  · intro h
    have hb : ∀ x y z lg, c.acc ≠ .ok x y z lg := by
      intro x y z lg hcon; rw [h] at hcon; cases hcon
    obtain ⟨_, _, _, e4, e5, e6⟩ := stepCycle_accel_fallback initState c hb
    exact ⟨e4, e5, e6⟩
  · intro h
    have hb : ∀ x y z lg, c.gyro ≠ .ok x y z lg := by
      intro x y z lg hcon; rw [h] at hcon; cases hcon
    obtain ⟨_, _, _, e4, e5, e6⟩ := stepCycle_gyro_fallback initState c hb
    exact ⟨e4, e5, e6⟩
  · intro h
    have hb : ∀ x y z lg, c.mag ≠ .ok x y z lg := by
      intro x y z lg hcon; rw [h] at hcon; cases hcon
    obtain ⟨_, _, _, e4, e5, e6⟩ := stepCycle_mag_fallback initState c hb
    exact ⟨e4, e5, e6⟩

theorem C10_initial_cache_witness :
    (stepCycle initState quietCycle).ds.gyro_x = [(0 : ℚ)] :=
  ((C10_initial_cache quietCycle).2.2.1 rfl).1

theorem unpack_fff_none {p : List ℕ} (h : p.length ≠ 12) : unpack_fff p = none := by
  unfold unpack_fff
  split
  · simp at h
  · rfl

theorem unpack_6H_none {p : List ℕ} (h : p.length ≠ 12) : unpack_6H p = none := by
  unfold unpack_6H
  split
  · simp at h
  · rfl

theorem decodeResponse_short (rt : ℕ) {p : List ℕ} (h : p.length ≠ 12) :
    decodeResponse rt p = none := by
  unfold decodeResponse
  split
  · rw [unpack_fff_none h]; rfl
  · split
    · rw [unpack_6H_none h]; rfl
    · rfl

/-- Claim C8 is refuted at this input: a short 5-byte payload read on an
acceleration response leaves the state completely unchanged — the socket
stays open, no Degraded transition and no close occur; the code silently
discards the frame and continues. -/
theorem C8_short_read_cex :
    receive_response recvInit
        (.frame REQ_READ_ACCELERATION [0, 0, 0] [1, 2, 3, 4, 5] true) = recvInit ∧
    (receive_response recvInit
        (.frame REQ_READ_ACCELERATION [0, 0, 0] [1, 2, 3, 4, 5] true)).connected = true := by
  refine ⟨rfl, rfl⟩

/-- Claim C8 amended: only an exception raised during the receive (or
during sample processing) closes the socket; an empty response-type read
and a payload shorter than the expected 12 bytes are silently discarded
with the connection left open; while the socket is absent,
receive_response is a no-op, so received data is processed again only
after a new accept. -/
theorem C8_receive_failure_semantics (s : WireState) (rt : ℕ) (r p : List ℕ) (lg : Bool) :
    (s.connected = true → (receive_response s .recvError).connected = false) ∧
    (receive_response s .closedPeer = s) ∧
    (s.connected = true → p.length ≠ 12 →
      receive_response s (.frame rt r p lg) = s) ∧
    (s.connected = false → ∀ ev, receive_response s ev = s) := by
  refine ⟨?_, ?_, ?_, ?_⟩
  · intro hc
    simp [receive_response, hc]
  · by_cases hc : s.connected <;> simp [receive_response, hc]
  · intro hc hp
    simp [receive_response, hc, decodeResponse_short rt hp]
  · intro hc ev
    simp [receive_response, hc]

theorem C8_receive_failure_semantics_witness :
    (receive_response recvInit .recvError).connected = false ∧
    receive_response recvInit .closedPeer = recvInit ∧
    receive_response recvInit (.frame REQ_READ_ACCELERATION [0, 0, 0] [1, 2] true) =
      recvInit := by
  have h := C8_receive_failure_semantics recvInit REQ_READ_ACCELERATION [0, 0, 0]
    [1, 2] true
  exact ⟨h.1 rfl, h.2.1, h.2.2.1 rfl (by decide)⟩

/-- Claim C9 is refuted at this input: a well-formed acceleration frame
whose durable-log write fails.  The exception from _log_data is swallowed
by receive_response's catch-all handler and converted into a disconnection
(the socket is closed), rather than escalated to the caller; the cache
update made before logging survives and no log line is written. -/
theorem C9_log_failure_cex :
    (receive_response recvInit
      (.frame REQ_READ_ACCELERATION [1, 2, 3] (pack_fff 7 8 9) false)).connected = false ∧
    (receive_response recvInit
      (.frame REQ_READ_ACCELERATION [1, 2, 3] (pack_fff 7 8 9) false)).accel = (7, 8, 9) ∧
    (receive_response recvInit
      (.frame REQ_READ_ACCELERATION [1, 2, 3] (pack_fff 7 8 9) false)).logLines = 0 := by
  refine ⟨rfl, rfl, rfl⟩

/-- Claim C9 amended: a failure to write the durable log propagates out of
_log_data (which has no handler of its own) but is caught by
receive_response's catch-all exception handler and handled as a
disconnection: the socket is closed and nothing is escalated to the
caller; the channel-cache update performed before the log write persists,
so in-memory session accumulation continues with the decoded value. -/
theorem C9_log_failure_semantics (s : WireState) (x y z : ℕ)
    (hc : s.connected = true) (hx : x < 2 ^ 32) (hy : y < 2 ^ 32) (hz : z < 2 ^ 32) :
    (receive_response s
      (.frame REQ_READ_ACCELERATION [1, 2, 3] (pack_fff x y z) false)).connected = false ∧
    (receive_response s
      (.frame REQ_READ_ACCELERATION [1, 2, 3] (pack_fff x y z) false)).accel = (x, y, z) ∧
    (receive_response s
      (.frame REQ_READ_ACCELERATION [1, 2, 3] (pack_fff x y z) false)).logLines =
      s.logLines := by
  have hd : decodeResponse REQ_READ_ACCELERATION (pack_fff x y z) =
      some (.sensorSample REQ_READ_ACCELERATION x y z) := by
    simp [decodeResponse, REQ_READ_ACCELERATION, unpack_pack_fff x y z hx hy hz]
  simp only [REQ_READ_ACCELERATION] at hd
  refine ⟨?_, ?_, ?_⟩ <;>
    simp [receive_response, hc, hd, REQ_READ_ACCELERATION]

theorem C9_log_failure_semantics_witness :
    (receive_response recvInit
      (.frame REQ_READ_ACCELERATION [1, 2, 3] (pack_fff 7 8 9) false)).connected = false ∧
    (receive_response recvInit
      (.frame REQ_READ_ACCELERATION [1, 2, 3] (pack_fff 7 8 9) false)).accel = (7, 8, 9) ∧
    (receive_response recvInit
      (.frame REQ_READ_ACCELERATION [1, 2, 3] (pack_fff 7 8 9) false)).logLines =
      recvInit.logLines :=
  C9_log_failure_semantics recvInit 7 8 9 rfl (by norm_num) (by norm_num) (by norm_num)

end IMUServer
